import Mathlib

/-!
Shallow embedding of the API route handlers of the `my-sns` social-media
application (Next.js + Clerk + Supabase), together with proofs of the
behavioural claims about them.

Database tables are modelled as lists of row records; each handler is a pure
function from its inputs (authentication result, parsed request data,
database snapshot, storage snapshot, external-call outcomes) to an HTTP
status plus the updated database/storage state.  External services (Clerk
`auth()`, the `sharp` image resizer, `new URL`, the storage upload) are
modelled as explicit inputs, mirroring exactly how the handlers consume
their results.
-/

namespace MySns

/-- A row of the `users` table (`id` is the Supabase UUID, `clerk_id` the
identity-provider subject id). -/
structure UserRow where
  id : String
  clerk_id : String
  name : String
  deriving Repr, DecidableEq

/-- A row of the `posts` table. `created_at` is the creation timestamp
(larger = more recent). -/
structure PostRow where
  id : String
  user_id : String
  image_url : Option String
  caption : Option String
  created_at : Nat
  deriving Repr, DecidableEq

/-- A row of the `likes` table: a (post, user) pair. -/
structure LikeRow where
  id : String
  post_id : String
  user_id : String
  deriving Repr, DecidableEq

/-- A row of the `comments` table. -/
structure CommentRow where
  id : String
  post_id : String
  user_id : String
  content : String
  created_at : Nat
  deriving Repr, DecidableEq

/-- A row of the `follows` table: a (follower, followee) pair. -/
structure FollowRow where
  id : String
  follower_id : String
  following_id : String
  deriving Repr, DecidableEq

/-- The relational database snapshot seen by a request. -/
structure Db where
  users : List UserRow
  posts : List PostRow
  likes : List LikeRow
  comments : List CommentRow
  follows : List FollowRow
  deriving Repr, DecidableEq

/-- An object held in Supabase storage. -/
structure StoredObject where
  path : String
  contentType : String
  bytes : List Nat
  deriving Repr, DecidableEq

/-- `supabase.from('users').select('id').eq('clerk_id', c).single()`:
the first row whose `clerk_id` matches (`.single()` errors when no row
matches, modelled by `none`). -/
def findUserByClerkId (db : Db) (clerkId : String) : Option UserRow :=
  db.users.find? (fun u => u.clerk_id == clerkId)

/-- `supabase.from('posts').select(...).eq('id', p).single()`. -/
def findPostById (db : Db) (postId : String) : Option PostRow :=
  db.posts.find? (fun p => p.id == postId)

/-- `supabase.from('likes').select('id').eq('post_id', p).eq('user_id', u)
.single()`: `none` models the `PGRST116` no-rows outcome. -/
def findLike (db : Db) (postId userId : String) : Option LikeRow :=
  db.likes.find? (fun l => l.post_id == postId && l.user_id == userId)

/-- Result of a mutating handler: HTTP status, the JSON error `details`
string (when the handler attaches one), and resulting database state. -/
structure HandlerResult where
  status : Nat
  details : Option String
  db : Db
  deriving Repr, DecidableEq

/-- `POST /api/likes` (src/app/api/likes/route.ts).  Inputs: the Clerk
authentication result (`none` = signed out), the parsed request `postId`
(`none` = missing or not a string), the database id the insert would assign
to a fresh like row, and the database snapshot. -/
def likesPOST (clerkUserId : Option String) (reqPostId : Option String)
    (newLikeId : String) (db : Db) : HandlerResult :=
  match clerkUserId with
  | none => ⟨401, none, db⟩
  | some clerkId =>
    match reqPostId with
    | none => ⟨400, some "postId is required", db⟩
    | some postId =>
      -- `!body.postId` is also true for the empty string
      if postId = "" then ⟨400, some "postId is required", db⟩
      else
        match findUserByClerkId db clerkId with
        | none => ⟨404, some "Failed to find user in database", db⟩
        | some user =>
          match findPostById db postId with
          | none => ⟨404, some "The specified post does not exist", db⟩
          | some _ =>
            match findLike db postId user.id with
            | some _ => ⟨409, some "Already liked this post", db⟩
            | none =>
              ⟨200, none,
                { db with likes :=
                    db.likes ++ [⟨newLikeId, postId, user.id⟩] }⟩

/-- Lookup of `supabase.from('users').select('id').eq('id', uid).single()`. -/
def findUserById (db : Db) (uid : String) : Option UserRow :=
  db.users.find? (fun u => u.id == uid)

/-- Lookup of the follow row for a (follower, followee) pair;
`none` models the `PGRST116` no-rows outcome of `.single()`. -/
def findFollow (db : Db) (followerId followingId : String) : Option FollowRow :=
  db.follows.find?
    (fun f => f.follower_id == followerId && f.following_id == followingId)

/-- Handler `POST /api/follows` (src/app/api/follows/route.ts). -/
def followsPOST (clerkUserId : Option String) (reqFollowingId : Option String)
    (newFollowId : String) (db : Db) : HandlerResult :=
  match clerkUserId with
  | none => ⟨401, none, db⟩
  | some clerkId =>
    match reqFollowingId with
    | none => ⟨400, some "followingId is required", db⟩
    | some followingId =>
      if followingId = "" then ⟨400, some "followingId is required", db⟩
      else
        match findUserByClerkId db clerkId with
        | none => ⟨404, some "Failed to find user in database", db⟩
        | some follower =>
          match findUserById db followingId with
          | none => ⟨404, some "The specified user does not exist", db⟩
          | some _ =>
            if follower.id = followingId then
              ⟨400, some "Cannot follow yourself", db⟩
            else
              match findFollow db follower.id followingId with
              | some _ => ⟨409, some "Already following this user", db⟩
              | none =>
                ⟨200, none,
                  { db with follows :=
                      db.follows ++ [⟨newFollowId, follower.id, followingId⟩] }⟩

/-- Result of a handler that can touch both the database and storage. -/
structure StorageResult where
  status : Nat
  details : Option String
  db : Db
  storage : List StoredObject
  deriving Repr, DecidableEq

/-- Path extraction of DELETE /api/posts/[postId]: split the URL pathname on
slashes, find the segment 'uploads' (JS `indexOf` yielding -1 is modelled by
`none`), and when something follows it rejoin the remaining segments. -/
def extractStoragePath (pathname : String) : Option String :=
  let pathParts := pathname.splitOn "/"
  match pathParts.indexOf? "uploads" with
  | none => none
  | some uploadsIndex =>
    if uploadsIndex < pathParts.length - 1 then
      some (String.intercalate "/" (pathParts.drop (uploadsIndex + 1)))
    else none

/-- Model of `supabase.storage.from(bucket).remove([filePath])`. -/
def storageRemove (storage : List StoredObject) (filePath : String) :
    List StoredObject :=
  storage.filter (fun o => !(o.path == filePath))

/-- Handler `DELETE /api/posts/[postId]`.  `urlPathname` models the external
`new URL(u).pathname` call (`none` = the constructor threw, which the code
catches and then proceeds with the row deletion anyway). -/
def postDELETE (urlPathname : String → Option String)
    (clerkUserId : Option String) (postIdParam : Option String)
    (db : Db) (storage : List StoredObject) : StorageResult :=
  match clerkUserId with
  | none => ⟨401, none, db, storage⟩
  | some clerkId =>
    match postIdParam with
    | none => ⟨400, some "postId is required", db, storage⟩
    | some postId =>
      if postId = "" then ⟨400, some "postId is required", db, storage⟩
      else
        match findUserByClerkId db clerkId with
        | none => ⟨404, some "Failed to find user in database", db, storage⟩
        | some user =>
          match findPostById db postId with
          | none => ⟨404, some "Post not found", db, storage⟩
          | some post =>
            if post.user_id ≠ user.id then
              ⟨403, some "You can only delete your own posts", db, storage⟩
            else
              let storage1 :=
                match post.image_url with
                | none => storage
                | some url =>
                  -- `if (postData.image_url)`: the empty string is falsy
                  if url = "" then storage
                  else
                    match urlPathname url with
                    | none => storage
                    | some pathname =>
                      match extractStoragePath pathname with
                      | none => storage
                      | some filePath => storageRemove storage filePath
              let db1 : Db :=
                { db with
                  posts := db.posts.filter
                    (fun p => !(p.id == postId && p.user_id == user.id)),
                  -- ON DELETE CASCADE on rows referencing the post
                  likes := db.likes.filter (fun l => !(l.post_id == postId)),
                  comments := db.comments.filter
                    (fun c => !(c.post_id == postId)) }
              ⟨200, none, db1, storage1⟩

/-- JavaScript `s.startsWith(p)`: prefix test on the character sequence. -/
def strStartsWith (s p : String) : Bool :=
  p.data.isPrefixOf s.data

/-- JavaScript `String.prototype.trim`: strip leading and trailing
whitespace. -/
def jsTrim (s : String) : String :=
  ⟨((s.data.dropWhile Char.isWhitespace).reverse.dropWhile
      Char.isWhitespace).reverse⟩

/-- The multipart image file of a POST /api/posts request. -/
structure FileData where
  type : String
  size : Nat
  bytes : List Nat
  deriving Repr, DecidableEq

/-- External-world inputs of one POST /api/posts request. -/
structure PostEnv where
  /-- Outcome of the external call
  `sharp(buffer).resize(w, h, fit/position opts).jpeg(quality opt).toBuffer()`
  as a function of the buffer and the option values; `none` models the
  resize throwing. -/
  sharpResize : List Nat → Nat → Nat → String → String → Nat → Option (List Nat)
  /-- Value of the expression
  `Date.now() ++ "-" ++ Math.random().toString(36).substring(7)`. -/
  fileNameStem : String
  /-- Storage upload failure for reasons other than a path conflict. -/
  uploadFails : Bool
  /-- Value of `getPublicUrl(filePath).publicUrl` as a function of the path. -/
  publicUrl : String → String
  /-- Outcome of the `posts` insert (`true` = the insert errored). -/
  insertFails : Bool
  /-- Database id assigned to a freshly inserted post row. -/
  newPostId : String
  /-- Database timestamp assigned to a freshly inserted post row. -/
  now : Nat

def MAX_FILE_SIZE : Nat := 5 * 1024 * 1024

def MAX_CAPTION_LENGTH : Nat := 2200

/-- Handler `POST /api/posts` (src/app/api/posts/route.ts, lines 263-434).
`captionField` is `formData.get('caption')` (`none` = absent, which the code
turns into the empty string via `|| ''`). -/
def postsPOST (env : PostEnv) (clerkUserId : Option String)
    (imageFile : Option FileData) (captionField : Option String)
    (db : Db) (storage : List StoredObject) : StorageResult :=
  match clerkUserId with
  | none => ⟨401, none, db, storage⟩
  | some clerkId =>
    let caption := captionField.getD ""
    match imageFile with
    | none => ⟨400, some "이미지 파일이 필요합니다.", db, storage⟩
    | some file =>
      if ¬ strStartsWith file.type "image/" then
        ⟨400, some "이미지 파일만 업로드 가능합니다.", db, storage⟩
      else if file.size > MAX_FILE_SIZE then
        ⟨400, some "파일 크기는 최대 5MB입니다.", db, storage⟩
      else if caption.length > MAX_CAPTION_LENGTH then
        ⟨400, some "캡션은 최대 2,200자까지 입력 가능합니다.", db, storage⟩
      else
        match findUserByClerkId db clerkId with
        | none => ⟨404, some "Failed to find user in database", db, storage⟩
        | some user =>
          -- resize step: on success upload the resized JPEG, on an
          -- exception fall back to the original file and its content type
          let upload : List Nat × String :=
            match env.sharpResize file.bytes 1080 1080 "cover" "center" 80 with
            | some resized => (resized, "image/jpeg")
            | none => (file.bytes, file.type)
          let fileName := env.fileNameStem ++ ".jpg"
          let filePath := clerkId ++ "/" ++ fileName
          -- upload with upsert:false errors when the path already exists
          if env.uploadFails || storage.any (fun o => o.path == filePath) then
            ⟨500, some "Failed to upload image", db, storage⟩
          else
            let storage1 := storage ++ [⟨filePath, upload.2, upload.1⟩]
            let imageUrl := env.publicUrl filePath
            if env.insertFails then
              -- roll back: remove the just-uploaded file, answer 500
              ⟨500, some "Failed to create post", db,
                storageRemove storage1 filePath⟩
            else
              let trimmed := jsTrim caption
              ⟨200, none,
                { db with posts := db.posts ++
                    [⟨env.newPostId, user.id, some imageUrl,
                      if trimmed = "" then none else some trimmed, env.now⟩] },
                storage1⟩

/-- The external identity record returned by `clerkClient().users.getUser`. -/
structure ClerkUser where
  id : String
  fullName : Option String
  username : Option String
  email : Option String
  deriving Repr, DecidableEq

/-- JavaScript `a || b` on an optional string: `null`, `undefined` and the
empty string fall through to the default. -/
def jsOrStr : Option String → String → String
  | none, d => d
  | some s, d => if s = "" then d else s

/-- Display name chosen by the identity sync:
`clerkUser.fullName || clerkUser.username ||
clerkUser.emailAddresses[0]?.emailAddress || 'Unknown'`. -/
def clerkDisplayName (cu : ClerkUser) : String :=
  jsOrStr cu.fullName (jsOrStr cu.username (jsOrStr cu.email "Unknown"))

/-- Upsert with `onConflict: 'clerk_id'`: update the (unique-keyed) matching
row in place, or append a fresh row when no row carries this `clerk_id`. -/
def upsertUserByClerkId (users : List UserRow) (clerkId name newId : String) :
    List UserRow :=
  match users with
  | [] => [⟨newId, clerkId, name⟩]
  | u :: rest =>
    if u.clerk_id = clerkId then { u with name := name } :: rest
    else u :: upsertUserByClerkId rest clerkId name newId

/-- The identity-sync step of GET /api/users/[userId] (lines 98-118):
upsert a local user row from the fetched identity record, keyed on
`clerk_id`.  `newId` is the database id an insert would assign. -/
def syncUser (users : List UserRow) (cu : ClerkUser) (newId : String) :
    List UserRow :=
  upsertUserByClerkId users cu.id (clerkDisplayName cu) newId

/-- JavaScript `x || d` for a nullable string query parameter. -/
def jsOrDefault (x : Option String) (d : String) : String :=
  match x with
  | none => d
  | some s => if s = "" then d else s

/-- Value of a digit string read in base 10. -/
def digitsToNat (ds : List Char) : Nat :=
  ds.foldl (fun n c => n * 10 + (c.toNat - '0'.toNat)) 0

/-- JavaScript `parseInt(s, 10)`: skip leading whitespace, read an optional
sign, then the longest digit prefix; `none` models `NaN` (no digits). -/
def jsParseInt (s : String) : Option Int :=
  let t := s.data.dropWhile Char.isWhitespace
  let signDigits : Int × List Char :=
    match t with
    | '-' :: rest => (-1, rest)
    | '+' :: rest => (1, rest)
    | l => (1, l)
  let ds := signDigits.2.takeWhile Char.isDigit
  if ds.isEmpty then none
  else some (signDigits.1 * (digitsToNat ds))

/-- JavaScript `Math.max(a, x)`: `NaN` absorbs. -/
def jsMax (a : Int) : Option Int → Option Int
  | none => none
  | some x => some (max a x)

/-- JavaScript `Math.min(a, x)`: `NaN` absorbs. -/
def jsMin (a : Int) : Option Int → Option Int
  | none => none
  | some x => some (min a x)

/-- Line 56 of the GET handler:
`Math.max(1, parseInt(searchParams.get('page') || '1', 10))`. -/
def effectivePage (pageParam : Option String) : Option Int :=
  jsMax 1 (jsParseInt (jsOrDefault pageParam "1"))

/-- Line 57 of the GET handler:
`Math.min(50, Math.max(1, parseInt(searchParams.get('limit') || '10', 10)))`. -/
def effectiveLimit (limitParam : Option String) : Option Int :=
  jsMin 50 (jsMax 1 (jsParseInt (jsOrDefault limitParam "10")))

/-- JavaScript `x || undefined` on a nullable string field. -/
def jsOrNone : Option String → Option String
  | none => none
  | some s => if s = "" then none else some s

/-- Comparator of `.order('created_at', \x7b ascending: false })` on posts. -/
def postByDesc (a b : PostRow) : Bool :=
  decide (b.created_at ≤ a.created_at)

/-- Comparator of `.order('created_at', \x7b ascending: false })` on comments. -/
def commentByDesc (a b : CommentRow) : Bool :=
  decide (b.created_at ≤ a.created_at)

/-- The posts matching the optional `userId` query filter. -/
def filteredPosts (db : Db) (userIdFilter : Option String) : List PostRow :=
  match userIdFilter with
  | none => db.posts
  | some uid => db.posts.filter (fun p => p.user_id == uid)

/-- The posts query of lines 84-107: filter, then order by `created_at`
descending. -/
def sortedPosts (db : Db) (userIdFilter : Option String) : List PostRow :=
  (filteredPosts db userIdFilter).mergeSort postByDesc

/-- The `likeCountsMap` / `commentCountsMap` construction: a `forEach` over
the fetched rows incrementing a per-key counter that starts at the map-miss
default 0. -/
def buildCountMap (key : α → String) (rows : List α) : String → Nat :=
  rows.foldl (fun m r => fun p => if p = key r then m p + 1 else m p)
    (fun _ => 0)

/-- The guard `currentUserId && like.user_id === currentUserId` (a `null` or
empty current user id is falsy). -/
def likeMatches (currentUserId : Option String) (l : LikeRow) : Bool :=
  match currentUserId with
  | none => false
  | some c => decide (c ≠ "") && (l.user_id == c)

/-- The `userLikesSet` construction of lines 141-152. -/
def buildUserLikes (currentUserId : Option String) (rows : List LikeRow) :
    String → Bool :=
  rows.foldl
    (fun s l =>
      if likeMatches currentUserId l then
        fun p => if p = l.post_id then true else s p
      else s)
    (fun _ => false)

/-- The per-post comments query of lines 155-174: comments of the post,
newest first, at most `n` of them (the handler passes `n = 2`). -/
def recentComments (db : Db) (postId : String) (n : Nat) : List CommentRow :=
  (((db.comments.filter (fun c => c.post_id == postId)).mergeSort
    commentByDesc).take n)

/-- One entry of a formatted `comments` array (lines 215-221). -/
structure FormattedComment where
  id : String
  username : String
  content : String
  userId : String
  created_at : Nat
  deriving Repr, DecidableEq

/-- Formatting of one comment row: the username falls back to the literal
used in the source when the joined user row is missing or unnamed. -/
def formatComment (db : Db) (c : CommentRow) : FormattedComment :=
  { id := c.id
    username :=
      jsOrStr ((db.users.find? (fun u => u.id == c.user_id)).map
        (fun u => u.name)) "알 수 없음"
    content := c.content
    userId := c.user_id
    created_at := c.created_at }

/-- One entry of the formatted `posts` array (lines 223-240). -/
structure FormattedPost where
  id : String
  user_id : String
  image_url : Option String
  caption : Option String
  user : Option (String × String)
  like_count : Nat
  is_liked : Bool
  comments : List FormattedComment
  total_comments : Nat
  created_at : Nat
  deriving Repr, DecidableEq

/-- Response body of GET /api/posts. -/
structure FeedResponse where
  status : Nat
  posts : List FormattedPost
  hasMore : Bool
  page : Nat
  deriving Repr, DecidableEq

/-- Page window of the posts query: `.range(offset, offset + limit - 1)`
over the ordered, filtered posts, with `offset = (page - 1) * limit`. -/
def feedPage (db : Db) (userIdFilter : Option String) (page limit : Nat) :
    List PostRow :=
  ((sortedPosts db userIdFilter).drop ((page - 1) * limit)).take limit

/-- Formatting of one post of the page (lines 213-241).  `postIds` is the
list of ids of the page, which scopes the likes and comment-count queries
(`.in('post_id', postIds)`). -/
def feedFormat (db : Db) (currentUserId : Option String)
    (postIds : List String) (p : PostRow) : FormattedPost :=
  let likesData := db.likes.filter (fun l => postIds.contains l.post_id)
  let allComments := db.comments.filter (fun c => postIds.contains c.post_id)
  { id := p.id
    user_id := p.user_id
    image_url := jsOrNone p.image_url
    caption := jsOrNone p.caption
    user := (db.users.find? (fun u => u.id == p.user_id)).map
      (fun u => (u.id, u.name))
    like_count := buildCountMap (fun l => l.post_id) likesData p.id
    is_liked := buildUserLikes currentUserId likesData p.id
    comments := (recentComments db p.id 2).map (formatComment db)
    total_comments := buildCountMap (fun c => c.post_id) allComments p.id
    created_at := p.created_at }

/-- The next-page probe of lines 199-210:
`.select('id', count exact/head).range(offset+limit, offset+limit)` is
modelled with PostgREST semantics: only a range whose start strictly
exceeds the total number of matching rows is not satisfiable (PGRST103,
yielding no count, `none`); a range starting at or before the total — in
particular starting exactly at it — answers 2xx with the exact count of all
matching rows.  The handler then takes `(nextPageCount || 0) > 0`. -/
def feedHasMore (db : Db) (userIdFilter : Option String)
    (page limit : Nat) : Bool :=
  let offset := (page - 1) * limit
  let total := (filteredPosts db userIdFilter).length
  let nextPageCount : Option Nat :=
    if total < offset + limit then none else some total
  decide (0 < nextPageCount.getD 0)

/-- Core of the GET /api/posts handler after parameter parsing
(lines 60-247). -/
def buildFeed (db : Db) (currentUserId : Option String)
    (userIdFilter : Option String) (page limit : Nat) : FeedResponse :=
  let pageData := feedPage db userIdFilter page limit
  if pageData.isEmpty then
    { status := 200, posts := [], hasMore := false, page := page }
  else
    { status := 200
      posts := pageData.map
        (feedFormat db currentUserId (pageData.map (fun p => p.id)))
      hasMore := feedHasMore db userIdFilter page limit
      page := page }

/-- Resolution of the current user for GET requests (lines 67-81). -/
def resolveCurrentUser (db : Db) (clerkUserId : Option String) :
    Option String :=
  match clerkUserId with
  | none => none
  | some c => (findUserByClerkId db c).map (fun u => u.id)

/-- Full GET /api/posts handler: parse the query parameters, then run the
feed pipeline.  When `page` or `limit` parses to `NaN` the computed offset
is `NaN` and the behaviour of the downstream SDK range call is not defined
by this repository; the model returns `none` there. -/
def postsGET (db : Db) (clerkUserId : Option String)
    (pageParam limitParam userIdParam : Option String) :
    Option FeedResponse :=
  match effectivePage pageParam, effectiveLimit limitParam with
  | some p, some l =>
    some (buildFeed db (resolveCurrentUser db clerkUserId)
      (match userIdParam with
       | none => none
       | some u => if u = "" then none else some u)
      p.toNat l.toNat)
  | _, _ => none

/-! ## Theorems -/

/-- C1: an authenticated POST /api/likes request by a user who already has a
like row for the requested (existing) post answers HTTP 409 with the
conflict error and leaves the database — in particular the likes table —
unchanged, so the (post, user) pair stays unique. -/
theorem likesPOST_duplicate_conflict (db : Db)
    (clerkId postId newId : String) (user : UserRow) (l : LikeRow)
    (hpid : postId ≠ "")
    (hu : findUserByClerkId db clerkId = some user)
    (hpost : ∃ p ∈ db.posts, p.id = postId)
    (hl : l ∈ db.likes) (hlp : l.post_id = postId)
    (hlu : l.user_id = user.id) :
    (likesPOST (some clerkId) (some postId) newId db).status = 409 ∧
    (likesPOST (some clerkId) (some postId) newId db).details =
      some "Already liked this post" ∧
    (likesPOST (some clerkId) (some postId) newId db).db = db := by
  obtain ⟨p, hp, hpi⟩ := hpost
  have hq : ∃ q, findPostById db postId = some q := by
    have hs : (findPostById db postId).isSome := by
      rw [findPostById, List.find?_isSome]
      exact ⟨p, hp, by simp [hpi]⟩
    exact Option.isSome_iff_exists.mp hs
  obtain ⟨q, hq⟩ := hq
  have hr : ∃ r, findLike db postId user.id = some r := by
    have hs : (findLike db postId user.id).isSome := by
      rw [findLike, List.find?_isSome]
      exact ⟨l, hl, by simp [hlp, hlu]⟩
    exact Option.isSome_iff_exists.mp hs
  obtain ⟨r, hr⟩ := hr
  simp [likesPOST, hpid, hu, hq, hr]

/-- Witness for C1 at a concrete database. -/
theorem likesPOST_duplicate_conflict_witness :
    (likesPOST (some "c2") (some "p1") "l9"
      ⟨[⟨"u1", "c1", "Alice"⟩, ⟨"u2", "c2", "Bob"⟩],
       [⟨"p1", "u1", none, none, 10⟩], [⟨"l1", "p1", "u2"⟩], [], []⟩).status
      = 409 ∧
    (likesPOST (some "c2") (some "p1") "l9"
      ⟨[⟨"u1", "c1", "Alice"⟩, ⟨"u2", "c2", "Bob"⟩],
       [⟨"p1", "u1", none, none, 10⟩], [⟨"l1", "p1", "u2"⟩], [], []⟩).details
      = some "Already liked this post" ∧
    (likesPOST (some "c2") (some "p1") "l9"
      ⟨[⟨"u1", "c1", "Alice"⟩, ⟨"u2", "c2", "Bob"⟩],
       [⟨"p1", "u1", none, none, 10⟩], [⟨"l1", "p1", "u2"⟩], [], []⟩).db
      = ⟨[⟨"u1", "c1", "Alice"⟩, ⟨"u2", "c2", "Bob"⟩],
         [⟨"p1", "u1", none, none, 10⟩], [⟨"l1", "p1", "u2"⟩], [], []⟩ :=
  likesPOST_duplicate_conflict _ "c2" "p1" "l9" ⟨"u2", "c2", "Bob"⟩
    ⟨"l1", "p1", "u2"⟩ (by decide) (by decide)
    ⟨⟨"p1", "u1", none, none, 10⟩, by decide⟩ (by decide) rfl rfl

/-- C2: an authenticated DELETE /api/posts/[postId] request on an existing
post owned by a different user answers HTTP 403 and changes neither the
database (the post is not deleted) nor the storage (the image file is not
removed). -/
theorem postDELETE_foreign_post_forbidden
    (urlPathname : String → Option String) (db : Db)
    (storage : List StoredObject) (clerkId postId : String)
    (user : UserRow) (post : PostRow)
    (hpid : postId ≠ "")
    (hu : findUserByClerkId db clerkId = some user)
    (hp : findPostById db postId = some post)
    (hown : post.user_id ≠ user.id) :
    (postDELETE urlPathname (some clerkId) (some postId) db storage).status
      = 403 ∧
    (postDELETE urlPathname (some clerkId) (some postId) db storage).db
      = db ∧
    (postDELETE urlPathname (some clerkId) (some postId) db storage).storage
      = storage := by
  simp [postDELETE, hpid, hu, hp, hown]

/-- Witness for C2 at a concrete database and storage state. -/
theorem postDELETE_foreign_post_forbidden_witness :
    (postDELETE (fun _ => none) (some "c2") (some "p1")
      ⟨[⟨"u1", "c1", "Alice"⟩, ⟨"u2", "c2", "Bob"⟩],
       [⟨"p1", "u1", some "http://h/uploads/c1/a.jpg", none, 10⟩],
       [], [], []⟩
      [⟨"c1/a.jpg", "image/jpeg", [7]⟩]).status = 403 ∧
    (postDELETE (fun _ => none) (some "c2") (some "p1")
      ⟨[⟨"u1", "c1", "Alice"⟩, ⟨"u2", "c2", "Bob"⟩],
       [⟨"p1", "u1", some "http://h/uploads/c1/a.jpg", none, 10⟩],
       [], [], []⟩
      [⟨"c1/a.jpg", "image/jpeg", [7]⟩]).db =
      ⟨[⟨"u1", "c1", "Alice"⟩, ⟨"u2", "c2", "Bob"⟩],
       [⟨"p1", "u1", some "http://h/uploads/c1/a.jpg", none, 10⟩],
       [], [], []⟩ ∧
    (postDELETE (fun _ => none) (some "c2") (some "p1")
      ⟨[⟨"u1", "c1", "Alice"⟩, ⟨"u2", "c2", "Bob"⟩],
       [⟨"p1", "u1", some "http://h/uploads/c1/a.jpg", none, 10⟩],
       [], [], []⟩
      [⟨"c1/a.jpg", "image/jpeg", [7]⟩]).storage =
      [⟨"c1/a.jpg", "image/jpeg", [7]⟩] :=
  postDELETE_foreign_post_forbidden (fun _ => none) _ _ "c2" "p1"
    ⟨"u2", "c2", "Bob"⟩ ⟨"p1", "u1", some "http://h/uploads/c1/a.jpg", none, 10⟩
    (by decide) (by decide) (by decide) (by decide)

/-- C5: a POST /api/follows request whose resolved follower equals the
(existing) target user answers HTTP 400 with 'Cannot follow yourself' and
inserts no follow row; moreover, for arbitrary inputs the endpoint never
inserts a self-follow, so freedom from self-follows is preserved. -/
theorem followsPOST_no_self_follow (db : Db)
    (clerkId followingId newId : String) (follower : UserRow)
    (hfid : followingId ≠ "")
    (hu : findUserByClerkId db clerkId = some follower)
    (ht : ∃ u ∈ db.users, u.id = followingId)
    (heq : follower.id = followingId) :
    ((followsPOST (some clerkId) (some followingId) newId db).status = 400 ∧
     (followsPOST (some clerkId) (some followingId) newId db).details =
       some "Cannot follow yourself" ∧
     (followsPOST (some clerkId) (some followingId) newId db).db = db) ∧
    ∀ (cuid rid : Option String) (nid : String) (db' : Db),
      (∀ g ∈ db'.follows, g.follower_id ≠ g.following_id) →
      ∀ g ∈ (followsPOST cuid rid nid db').db.follows,
        g.follower_id ≠ g.following_id := by
  constructor
  · obtain ⟨u, hmem, hid⟩ := ht
    have hq : ∃ q, findUserById db followingId = some q := by
      have hs : (findUserById db followingId).isSome := by
        rw [findUserById, List.find?_isSome]
        exact ⟨u, hmem, by simp [hid]⟩
      exact Option.isSome_iff_exists.mp hs
    obtain ⟨q, hq⟩ := hq
    simp [followsPOST, hfid, hu, hq, heq]
  · intro cuid rid nid db' hinv g hg
    unfold followsPOST at hg
    rcases cuid with _ | c
    · exact hinv g hg
    rcases rid with _ | fid
    · exact hinv g hg
    by_cases hfe : fid = ""
    · simp only [hfe, if_pos rfl] at hg
      exact hinv g hg
    simp only [if_neg hfe] at hg
    rcases hfu : findUserByClerkId db' c with _ | fw
    · rw [hfu] at hg; exact hinv g hg
    rw [hfu] at hg
    rcases hfg : findUserById db' fid with _ | tg
    · rw [hfg] at hg; exact hinv g hg
    rw [hfg] at hg
    by_cases hself : fw.id = fid
    · simp only [if_pos hself] at hg
      exact hinv g hg
    simp only [if_neg hself] at hg
    rcases hff : findFollow db' fw.id fid with _ | ex
    · rw [hff] at hg
      simp only [List.mem_append, List.mem_singleton] at hg
      rcases hg with hg | hg
      · exact hinv g hg
      · subst hg; exact hself
    · rw [hff] at hg; exact hinv g hg

/-- Witness for C5 at a concrete database. -/
theorem followsPOST_no_self_follow_witness :
    ((followsPOST (some "c1") (some "u1") "f1"
      ⟨[⟨"u1", "c1", "Alice"⟩], [], [], [], []⟩).status = 400 ∧
     (followsPOST (some "c1") (some "u1") "f1"
      ⟨[⟨"u1", "c1", "Alice"⟩], [], [], [], []⟩).details =
       some "Cannot follow yourself" ∧
     (followsPOST (some "c1") (some "u1") "f1"
      ⟨[⟨"u1", "c1", "Alice"⟩], [], [], [], []⟩).db =
       ⟨[⟨"u1", "c1", "Alice"⟩], [], [], [], []⟩) ∧
    ∀ (cuid rid : Option String) (nid : String) (db' : Db),
      (∀ g ∈ db'.follows, g.follower_id ≠ g.following_id) →
      ∀ g ∈ (followsPOST cuid rid nid db').db.follows,
        g.follower_id ≠ g.following_id :=
  followsPOST_no_self_follow _ "c1" "u1" "f1" ⟨"u1", "c1", "Alice"⟩
    (by decide) (by decide) ⟨⟨"u1", "c1", "Alice"⟩, by decide⟩ rfl

theorem upsertUserByClerkId_idem (users : List UserRow)
    (cid name id1 id2 : String) :
    upsertUserByClerkId (upsertUserByClerkId users cid name id1) cid name id2
      = upsertUserByClerkId users cid name id1 := by
  induction users with
  | nil => simp [upsertUserByClerkId]
  | cons u rest ih =>
    by_cases h : u.clerk_id = cid
    · simp [upsertUserByClerkId, h]
    · simp [upsertUserByClerkId, h, ih]

theorem upsertUserByClerkId_mem (users : List UserRow)
    (cid name newId : String) :
    ∃ u ∈ upsertUserByClerkId users cid name newId,
      u.clerk_id = cid ∧ u.name = name := by
  induction users with
  | nil => exact ⟨⟨newId, cid, name⟩, by simp [upsertUserByClerkId]⟩
  | cons u rest ih =>
    by_cases h : u.clerk_id = cid
    · exact ⟨{ u with name := name }, by simp [upsertUserByClerkId, h]⟩
    · obtain ⟨v, hv, hv2⟩ := ih
      exact ⟨v, by simp [upsertUserByClerkId, h]; right; exact hv, hv2⟩

/-- C8: the identity-sync upsert of GET /api/users/[userId] leaves a user
row keyed on the identity id (`clerk_id`) carrying the resolved display
name, and it is idempotent: running the sync a second time with the same
identity record (whatever fresh id the second insert would have used)
leaves the users table exactly as after the first run. -/
theorem syncUser_keyed_and_idempotent (users : List UserRow)
    (cu : ClerkUser) (id1 id2 : String) :
    syncUser (syncUser users cu id1) cu id2 = syncUser users cu id1 ∧
    ∃ u ∈ syncUser users cu id1,
      u.clerk_id = cu.id ∧ u.name = clerkDisplayName cu :=
  ⟨upsertUserByClerkId_idem users cu.id (clerkDisplayName cu) id1 id2,
   upsertUserByClerkId_mem users cu.id (clerkDisplayName cu) id1⟩

/-- C4: for an authenticated POST /api/posts request, the handler answers
HTTP 400 exactly when the image part is missing, its content type is not an
image type, its size exceeds 5*1024*1024 bytes, or the caption exceeds 2200
characters; in particular a request with an image part of image content
type, size at most 5MB and caption at most 2200 characters passes all four
validation checks. -/
theorem postsPOST_validation_400 (env : PostEnv) (clerkId : String)
    (imageFile : Option FileData) (captionField : Option String)
    (db : Db) (storage : List StoredObject) :
    (postsPOST env (some clerkId) imageFile captionField db storage).status
        = 400 ↔
      (imageFile = none ∨
       (∃ f, imageFile = some f ∧
         (¬ strStartsWith f.type "image/" ∨ MAX_FILE_SIZE < f.size)) ∨
       MAX_CAPTION_LENGTH < (captionField.getD "").length) := by
  rcases imageFile with _ | f
  · simp [postsPOST]
  · simp only [postsPOST, Option.some.injEq]
    by_cases h1 : strStartsWith f.type "image/"
    · by_cases h2 : MAX_FILE_SIZE < f.size
      · simp [h1, h2]
      · by_cases h3 : MAX_CAPTION_LENGTH < (captionField.getD "").length
        · simp [h1, h2, h3]
        · rcases hu : findUserByClerkId db clerkId with _ | user
          · simp [h1, h2, h3, hu]
          · by_cases h4 : (env.uploadFails ||
                storage.any (fun o =>
                  o.path == clerkId ++ "/" ++ (env.fileNameStem ++ ".jpg")))
            · simp [h1, h2, h3, hu, h4]
            · by_cases h5 : env.insertFails
              · simp [h1, h2, h3, hu, h4, h5]
              · simp [h1, h2, h3, hu, h4, h5]
    · simp [h1]

/-- Witness for C4: a non-image content type is rejected with 400. -/
theorem postsPOST_validation_400_witness :
    (postsPOST
      (PostEnv.mk (fun _ _ _ _ _ _ => none) "t" false (fun p => p) false
        "p1" 5)
      (some "c1") (some ⟨"text/plain", 4, [1]⟩) none
      ⟨[], [], [], [], []⟩ []).status = 400 :=
  (postsPOST_validation_400
      (PostEnv.mk (fun _ _ _ _ _ _ => none) "t" false (fun p => p) false
        "p1" 5)
      "c1" (some ⟨"text/plain", 4, [1]⟩) none
      ⟨[], [], [], [], []⟩ []).mpr
    (Or.inr (Or.inl ⟨⟨"text/plain", 4, [1]⟩, rfl, Or.inl (by decide)⟩))

/-- C7: in POST /api/posts, when the external resize call (invoked with the
constants 1080x1080, cover fit, center position, JPEG quality 80) succeeds,
the uploaded object carries exactly its output with content type image/jpeg;
when the resize call throws, the original file bytes are uploaded with the
file's original content type, and the request still proceeds to create the
post row. -/
theorem postsPOST_resize_and_fallback (env : PostEnv) (clerkId : String)
    (file : FileData) (captionField : Option String)
    (db : Db) (storage : List StoredObject) (user : UserRow)
    (htype : strStartsWith file.type "image/")
    (hsize : file.size ≤ MAX_FILE_SIZE)
    (hcap : (captionField.getD "").length ≤ MAX_CAPTION_LENGTH)
    (hu : findUserByClerkId db clerkId = some user)
    (hupl : env.uploadFails = false)
    (hfresh : ∀ o ∈ storage,
      o.path ≠ clerkId ++ "/" ++ (env.fileNameStem ++ ".jpg"))
    (hins : env.insertFails = false) :
    (∀ rb, env.sharpResize file.bytes 1080 1080 "cover" "center" 80 = some rb →
      (postsPOST env (some clerkId) (some file) captionField db storage).status
        = 200 ∧
      (postsPOST env (some clerkId) (some file) captionField db storage).storage
        = storage ++
          [⟨clerkId ++ "/" ++ (env.fileNameStem ++ ".jpg"), "image/jpeg", rb⟩]) ∧
    (env.sharpResize file.bytes 1080 1080 "cover" "center" 80 = none →
      (postsPOST env (some clerkId) (some file) captionField db storage).status
        = 200 ∧
      (postsPOST env (some clerkId) (some file) captionField db storage).storage
        = storage ++
          [⟨clerkId ++ "/" ++ (env.fileNameStem ++ ".jpg"), file.type,
            file.bytes⟩] ∧
      (postsPOST env (some clerkId) (some file) captionField db storage).db.posts
        = db.posts ++
          [⟨env.newPostId, user.id,
            some (env.publicUrl (clerkId ++ "/" ++ (env.fileNameStem ++ ".jpg"))),
            (if jsTrim (captionField.getD "") = "" then none
             else some (jsTrim (captionField.getD ""))), env.now⟩]) := by
  have hnot2 : ¬ MAX_FILE_SIZE < file.size := Nat.not_lt.mpr hsize
  have hnot3 : ¬ MAX_CAPTION_LENGTH < (captionField.getD "").length :=
    Nat.not_lt.mpr hcap
  have hany : storage.any (fun o =>
      o.path == clerkId ++ "/" ++ (env.fileNameStem ++ ".jpg")) = false := by
    rw [List.any_eq_false]
    intro o ho
    simpa using hfresh o ho
  constructor
  · intro rb hrb
    simp [postsPOST, htype, hnot2, hnot3, hu, hupl, hany, hins, hrb]
  · intro hrb
    simp [postsPOST, htype, hnot2, hnot3, hu, hupl, hany, hins, hrb]

/-- Witness for C7 at a concrete environment and database. -/
theorem postsPOST_resize_and_fallback_witness :
    (∀ rb, (PostEnv.mk (fun _ _ _ _ _ _ => some [9]) "t-r" false
        (fun p => "http://h/" ++ p) false "p9" 99).sharpResize
        [1, 2] 1080 1080 "cover" "center" 80 = some rb →
      (postsPOST (PostEnv.mk (fun _ _ _ _ _ _ => some [9]) "t-r" false
          (fun p => "http://h/" ++ p) false "p9" 99)
        (some "c1") (some ⟨"image/png", 4, [1, 2]⟩) none
        ⟨[⟨"u1", "c1", "Alice"⟩], [], [], [], []⟩ []).status = 200 ∧
      (postsPOST (PostEnv.mk (fun _ _ _ _ _ _ => some [9]) "t-r" false
          (fun p => "http://h/" ++ p) false "p9" 99)
        (some "c1") (some ⟨"image/png", 4, [1, 2]⟩) none
        ⟨[⟨"u1", "c1", "Alice"⟩], [], [], [], []⟩ []).storage
        = [] ++ [⟨"c1" ++ "/" ++ ("t-r" ++ ".jpg"), "image/jpeg", rb⟩]) ∧
    ((PostEnv.mk (fun _ _ _ _ _ _ => some [9]) "t-r" false
        (fun p => "http://h/" ++ p) false "p9" 99).sharpResize
        [1, 2] 1080 1080 "cover" "center" 80 = none →
      (postsPOST (PostEnv.mk (fun _ _ _ _ _ _ => some [9]) "t-r" false
          (fun p => "http://h/" ++ p) false "p9" 99)
        (some "c1") (some ⟨"image/png", 4, [1, 2]⟩) none
        ⟨[⟨"u1", "c1", "Alice"⟩], [], [], [], []⟩ []).status = 200 ∧
      (postsPOST (PostEnv.mk (fun _ _ _ _ _ _ => some [9]) "t-r" false
          (fun p => "http://h/" ++ p) false "p9" 99)
        (some "c1") (some ⟨"image/png", 4, [1, 2]⟩) none
        ⟨[⟨"u1", "c1", "Alice"⟩], [], [], [], []⟩ []).storage
        = [] ++ [⟨"c1" ++ "/" ++ ("t-r" ++ ".jpg"), "image/png", [1, 2]⟩] ∧
      (postsPOST (PostEnv.mk (fun _ _ _ _ _ _ => some [9]) "t-r" false
          (fun p => "http://h/" ++ p) false "p9" 99)
        (some "c1") (some ⟨"image/png", 4, [1, 2]⟩) none
        ⟨[⟨"u1", "c1", "Alice"⟩], [], [], [], []⟩ []).db.posts
        = [] ++ [⟨"p9", "u1",
            some ((fun p => "http://h/" ++ p) ("c1" ++ "/" ++ ("t-r" ++ ".jpg"))),
            (if jsTrim (Option.getD (none : Option String) "") = "" then none
             else some (jsTrim (Option.getD (none : Option String) ""))), 99⟩]) :=
  postsPOST_resize_and_fallback
    (PostEnv.mk (fun _ _ _ _ _ _ => some [9]) "t-r" false
      (fun p => "http://h/" ++ p) false "p9" 99)
    "c1" ⟨"image/png", 4, [1, 2]⟩ none
    ⟨[⟨"u1", "c1", "Alice"⟩], [], [], [], []⟩ [] ⟨"u1", "c1", "Alice"⟩
    (by decide) (by decide) (by decide) (by decide) rfl
    (by intro o ho; simp at ho) rfl

/-- C10: in POST /api/posts, when the storage upload succeeded but the
subsequent insert of the post row fails, the handler removes the uploaded
file again and answers HTTP 500, leaving both the posts table and storage
exactly as before the request. -/
theorem postsPOST_insert_failure_rollback (env : PostEnv) (clerkId : String)
    (file : FileData) (captionField : Option String)
    (db : Db) (storage : List StoredObject) (user : UserRow)
    (htype : strStartsWith file.type "image/")
    (hsize : file.size ≤ MAX_FILE_SIZE)
    (hcap : (captionField.getD "").length ≤ MAX_CAPTION_LENGTH)
    (hu : findUserByClerkId db clerkId = some user)
    (hupl : env.uploadFails = false)
    (hfresh : ∀ o ∈ storage,
      o.path ≠ clerkId ++ "/" ++ (env.fileNameStem ++ ".jpg"))
    (hins : env.insertFails = true) :
    (postsPOST env (some clerkId) (some file) captionField db storage).status
      = 500 ∧
    (postsPOST env (some clerkId) (some file) captionField db storage).db
      = db ∧
    (postsPOST env (some clerkId) (some file) captionField db storage).storage
      = storage := by
  have hnot2 : ¬ MAX_FILE_SIZE < file.size := Nat.not_lt.mpr hsize
  have hnot3 : ¬ MAX_CAPTION_LENGTH < (captionField.getD "").length :=
    Nat.not_lt.mpr hcap
  have hany : storage.any (fun o =>
      o.path == clerkId ++ "/" ++ (env.fileNameStem ++ ".jpg")) = false := by
    rw [List.any_eq_false]
    intro o ho
    simpa using hfresh o ho
  have hclean : storageRemove
      (storage ++ [⟨clerkId ++ "/" ++ (env.fileNameStem ++ ".jpg"),
        (match env.sharpResize file.bytes 1080 1080 "cover" "center" 80 with
         | some resized => (resized, "image/jpeg")
         | none => (file.bytes, file.type)).2,
        (match env.sharpResize file.bytes 1080 1080 "cover" "center" 80 with
         | some resized => (resized, "image/jpeg")
         | none => (file.bytes, file.type)).1⟩])
      (clerkId ++ "/" ++ (env.fileNameStem ++ ".jpg")) = storage := by
    rw [storageRemove, List.filter_append]
    have h1 : storage.filter (fun o =>
        !(o.path == clerkId ++ "/" ++ (env.fileNameStem ++ ".jpg")))
        = storage := by
      rw [List.filter_eq_self]
      intro o ho
      simpa using hfresh o ho
    rw [h1]
    simp
  simp only [postsPOST, htype, hnot2, hnot3, hu, hupl, hany, hins]
  simp [hclean]

/-- Witness for C10 at a concrete environment and database. -/
theorem postsPOST_insert_failure_rollback_witness :
    (postsPOST (PostEnv.mk (fun _ _ _ _ _ _ => some [9]) "t-r" false
        (fun p => "http://h/" ++ p) true "p9" 99)
      (some "c1") (some ⟨"image/png", 4, [1, 2]⟩) none
      ⟨[⟨"u1", "c1", "Alice"⟩], [], [], [], []⟩ []).status = 500 ∧
    (postsPOST (PostEnv.mk (fun _ _ _ _ _ _ => some [9]) "t-r" false
        (fun p => "http://h/" ++ p) true "p9" 99)
      (some "c1") (some ⟨"image/png", 4, [1, 2]⟩) none
      ⟨[⟨"u1", "c1", "Alice"⟩], [], [], [], []⟩ []).db
      = ⟨[⟨"u1", "c1", "Alice"⟩], [], [], [], []⟩ ∧
    (postsPOST (PostEnv.mk (fun _ _ _ _ _ _ => some [9]) "t-r" false
        (fun p => "http://h/" ++ p) true "p9" 99)
      (some "c1") (some ⟨"image/png", 4, [1, 2]⟩) none
      ⟨[⟨"u1", "c1", "Alice"⟩], [], [], [], []⟩ []).storage = [] :=
  postsPOST_insert_failure_rollback
    (PostEnv.mk (fun _ _ _ _ _ _ => some [9]) "t-r" false
      (fun p => "http://h/" ++ p) true "p9" 99)
    "c1" ⟨"image/png", 4, [1, 2]⟩ none
    ⟨[⟨"u1", "c1", "Alice"⟩], [], [], [], []⟩ [] ⟨"u1", "c1", "Alice"⟩
    (by decide) (by decide) (by decide) (by decide) rfl
    (by intro o ho; simp at ho) rfl

theorem buildCountMap_foldl (key : α → String) (rows : List α)
    (m : String → Nat) (p : String) :
    (rows.foldl (fun m r => fun q => if q = key r then m q + 1 else m q) m) p
      = m p + rows.countP (fun r => key r == p) := by
  induction rows generalizing m with
  | nil => simp
  | cons r rest ih =>
    simp only [List.foldl_cons, List.countP_cons, ih]
    by_cases h : p = key r
    · simp only [h, if_pos rfl, beq_self_eq_true, if_pos]
      omega
    · have hb : (key r == p) = false := by
        simp [beq_eq_false_iff_ne, Ne.symm h]
      simp [h, hb]

theorem buildCountMap_eq (key : α → String) (rows : List α) (p : String) :
    buildCountMap key rows p = rows.countP (fun r => key r == p) := by
  rw [buildCountMap, buildCountMap_foldl]
  simp

theorem buildUserLikes_foldl (cur : Option String) (rows : List LikeRow)
    (s : String → Bool) (p : String) :
    (rows.foldl
      (fun s l =>
        if likeMatches cur l then
          fun q => if q = l.post_id then true else s q
        else s) s) p
      = (s p || rows.any (fun l => likeMatches cur l && l.post_id == p)) := by
  induction rows generalizing s with
  | nil => simp
  | cons l rest ih =>
    simp only [List.foldl_cons, List.any_cons, ih]
    by_cases hm : likeMatches cur l
    · by_cases hp : p = l.post_id
      · simp [hm, hp]
      · have hb : (l.post_id == p) = false := by
          simp [beq_eq_false_iff_ne, Ne.symm hp]
        simp [hm, hp, hb, Bool.or_assoc]
    · simp [hm]

theorem buildUserLikes_eq (cur : Option String) (rows : List LikeRow)
    (p : String) :
    buildUserLikes cur rows p
      = rows.any (fun l => likeMatches cur l && l.post_id == p) := by
  rw [buildUserLikes, buildUserLikes_foldl]
  simp

theorem postByDesc_trans (a b c : PostRow) :
    postByDesc a b → postByDesc b c → postByDesc a c := by
  simp only [postByDesc, decide_eq_true_eq]
  omega

theorem postByDesc_total (a b : PostRow) :
    (postByDesc a b || postByDesc b a) = true := by
  simp only [postByDesc, Bool.or_eq_true, decide_eq_true_eq]
  omega

theorem commentByDesc_trans (a b c : CommentRow) :
    commentByDesc a b → commentByDesc b c → commentByDesc a c := by
  simp only [commentByDesc, decide_eq_true_eq]
  omega

theorem commentByDesc_total (a b : CommentRow) :
    (commentByDesc a b || commentByDesc b a) = true := by
  simp only [commentByDesc, Bool.or_eq_true, decide_eq_true_eq]
  omega

theorem sortedPosts_pairwise (db : Db) (f : Option String) :
    (sortedPosts db f).Pairwise
      (fun a b => b.created_at ≤ a.created_at) := by
  have h := @List.sorted_mergeSort PostRow postByDesc
    (fun a b c h1 h2 => postByDesc_trans a b c h1 h2)
    postByDesc_total (filteredPosts db f)
  exact h.imp (by
    intro a b hb
    simpa [postByDesc] using hb)

theorem sortedPosts_length (db : Db) (f : Option String) :
    (sortedPosts db f).length = (filteredPosts db f).length :=
  List.length_mergeSort (filteredPosts db f)

theorem feedPage_pairwise (db : Db) (f : Option String) (page limit : Nat) :
    (feedPage db f page limit).Pairwise
      (fun a b => b.created_at ≤ a.created_at) := by
  have hsub : (feedPage db f page limit).Sublist (sortedPosts db f) := by
    rw [feedPage]
    exact (List.take_sublist _ _).trans (List.drop_sublist _ _)
  exact (sortedPosts_pairwise db f).sublist hsub

theorem feedPage_mem {db : Db} {f : Option String} {page limit : Nat}
    {p : PostRow} (hp : p ∈ feedPage db f page limit) :
    p ∈ filteredPosts db f := by
  rw [feedPage] at hp
  have h1 : p ∈ sortedPosts db f :=
    ((List.take_sublist _ _).trans (List.drop_sublist _ _)).mem hp
  rw [sortedPosts] at h1
  exact List.mem_mergeSort.mp h1

/-- C3 (code bug at the exactly-full boundary): with exactly one matching
post and page=1, limit=1 the page is exactly full — the posts are exhausted
at offset + limit = 1 and the next page is empty — yet the handler answers
hasMore = true: the next-page probe `.range(1, 1)` starts exactly at the
total count of matching rows, which PostgREST still answers with
count = total (a 416 arises only strictly beyond it), so
`(nextPageCount || 0) > 0` holds.  The third conjunct shows the claimed
empty-page response shape, which the following request then does produce. -/
theorem feed_exactly_full_last_page_hasMore_true :
    ((buildFeed
        ⟨[⟨"u1", "c1", "Alice"⟩], [⟨"p1", "u1", none, none, 10⟩], [], [], []⟩
        none none 1 1).hasMore = true) ∧
    ((filteredPosts
        ⟨[⟨"u1", "c1", "Alice"⟩], [⟨"p1", "u1", none, none, 10⟩], [], [], []⟩
        none).length = (1 - 1) * 1 + 1) ∧
    (buildFeed
        ⟨[⟨"u1", "c1", "Alice"⟩], [⟨"p1", "u1", none, none, 10⟩], [], [], []⟩
        none none 2 1 =
      { status := 200, posts := [], hasMore := false, page := 2 }) := by
  refine ⟨?_, by decide, ?_⟩
  · simp [buildFeed, feedPage, feedHasMore, sortedPosts, filteredPosts,
      List.mergeSort]
  · simp [buildFeed, feedPage, sortedPosts, filteredPosts, List.mergeSort]

/-- C9 counterexample: a non-numeric page or limit query parameter makes
`parseInt` return NaN, which `Math.max` / `Math.min` propagate instead of
clamping, so the effective page is NOT a number at least 1 — refuting the
claim for non-numeric parameter strings. -/
theorem feed_params_nan_counterexample :
    effectivePage (some "abc") = none ∧
    effectiveLimit (some "xyz") = none ∧
    ¬ ∃ n : Int, effectivePage (some "abc") = some n ∧ 1 ≤ n := by
  refine ⟨by decide, by decide, ?_⟩
  rintro ⟨n, hn, -⟩
  have h : effectivePage (some "abc") = none := by decide
  rw [h] at hn
  cases hn

theorem buildFeed_posts_length_le (db : Db) (cur f : Option String)
    (page limit : Nat) :
    (buildFeed db cur f page limit).posts.length ≤ limit := by
  by_cases hemp : (feedPage db f page limit).isEmpty
  · simp [buildFeed, hemp]
  · simp only [buildFeed, if_neg hemp, List.length_map]
    exact List.length_take_le _ _

/-- C9 (amended): whenever the page and limit parameters are absent, empty,
or carry a leading integer (so that `parseInt` does not produce NaN), the
effective page is at least 1, the effective limit lies in [1, 50] (the
defaults being 1 and 10), the offset (page-1)*limit is non-negative, and
the response holds at most 50 posts.  For a non-numeric parameter the NaN
propagates instead (see the counterexample). -/
theorem feed_params_clamped (db : Db) (cur : Option String)
    (pp lp uf : Option String)
    (hp : jsParseInt (jsOrDefault pp "1") ≠ none)
    (hl : jsParseInt (jsOrDefault lp "10") ≠ none) :
    ∃ p l : Int, effectivePage pp = some p ∧ effectiveLimit lp = some l ∧
      1 ≤ p ∧ 1 ≤ l ∧ l ≤ 50 ∧ 0 ≤ (p - 1) * l ∧
      ∃ res : FeedResponse, postsGET db cur pp lp uf = some res ∧
        res.posts.length ≤ 50 := by
  rcases hpv : jsParseInt (jsOrDefault pp "1") with _ | pv
  · exact absurd hpv hp
  rcases hlv : jsParseInt (jsOrDefault lp "10") with _ | lv
  · exact absurd hlv hl
  have hpe : effectivePage pp = some (max 1 pv) := by
    simp [effectivePage, hpv, jsMax]
  have hle : effectiveLimit lp = some (min 50 (max 1 lv)) := by
    simp [effectiveLimit, hlv, jsMax, jsMin]
  refine ⟨max 1 pv, min 50 (max 1 lv), hpe, hle, le_max_left 1 pv, ?_, ?_, ?_,
    ?_⟩
  · have := le_max_left 1 lv
    omega
  · exact min_le_left _ _
  · have h1 : (1 : Int) ≤ max 1 pv := le_max_left 1 pv
    have h2 : (0 : Int) ≤ min 50 (max 1 lv) := by
      have := le_max_left 1 lv
      omega
    exact mul_nonneg (by omega) h2
  · refine ⟨buildFeed db (resolveCurrentUser db cur)
      (match uf with
       | none => none
       | some u => if u = "" then none else some u)
      (max 1 pv).toNat (min 50 (max 1 lv)).toNat, ?_, ?_⟩
    · simp only [postsGET, hpe, hle]
    · calc (buildFeed db (resolveCurrentUser db cur)
            (match uf with
             | none => none
             | some u => if u = "" then none else some u)
            (max 1 pv).toNat (min 50 (max 1 lv)).toNat).posts.length
          ≤ (min 50 (max 1 lv)).toNat := buildFeed_posts_length_le _ _ _ _ _
        _ ≤ 50 := by
            have := le_max_left 1 lv
            omega

/-- Witness for the amended C9 at concrete query parameters. -/
theorem feed_params_clamped_witness :
    ∃ p l : Int,
      effectivePage (some "2") = some p ∧
      effectiveLimit (some "7") = some l ∧
      1 ≤ p ∧ 1 ≤ l ∧ l ≤ 50 ∧ 0 ≤ (p - 1) * l ∧
      ∃ res : FeedResponse,
        postsGET ⟨[], [], [], [], []⟩ none (some "2") (some "7") none
          = some res ∧ res.posts.length ≤ 50 :=
  feed_params_clamped ⟨[], [], [], [], []⟩ none (some "2") (some "7") none
    (by decide) (by decide)

theorem feedFormat_id (db : Db) (cur : Option String) (pids : List String)
    (p : PostRow) : (feedFormat db cur pids p).id = p.id := rfl

theorem feedFormat_created_at (db : Db) (cur : Option String)
    (pids : List String) (p : PostRow) :
    (feedFormat db cur pids p).created_at = p.created_at := rfl

theorem feedFormat_like_count (db : Db) (cur : Option String)
    (pids : List String) (p : PostRow) :
    (feedFormat db cur pids p).like_count
      = buildCountMap (fun l => l.post_id)
          (db.likes.filter (fun l => pids.contains l.post_id)) p.id := rfl

theorem feedFormat_is_liked (db : Db) (cur : Option String)
    (pids : List String) (p : PostRow) :
    (feedFormat db cur pids p).is_liked
      = buildUserLikes cur
          (db.likes.filter (fun l => pids.contains l.post_id)) p.id := rfl

theorem feedFormat_total_comments (db : Db) (cur : Option String)
    (pids : List String) (p : PostRow) :
    (feedFormat db cur pids p).total_comments
      = buildCountMap (fun c => c.post_id)
          (db.comments.filter (fun c => pids.contains c.post_id)) p.id := rfl

theorem feedFormat_comments (db : Db) (cur : Option String)
    (pids : List String) (p : PostRow) :
    (feedFormat db cur pids p).comments
      = (recentComments db p.id 2).map (formatComment db) := rfl

theorem formatComment_created_at (db : Db) (c : CommentRow) :
    (formatComment db c).created_at = c.created_at := rfl

theorem recentComments_pairwise (db : Db) (pid : String) (n : Nat) :
    (recentComments db pid n).Pairwise
      (fun a b => b.created_at ≤ a.created_at) := by
  have h := @List.sorted_mergeSort CommentRow commentByDesc
    (fun a b c h1 h2 => commentByDesc_trans a b c h1 h2)
    commentByDesc_total (db.comments.filter (fun c => c.post_id == pid))
  have hs : (recentComments db pid n).Sublist
      ((db.comments.filter (fun c => c.post_id == pid)).mergeSort
        commentByDesc) := by
    rw [recentComments]
    exact List.take_sublist _ _
  exact (h.imp (by
    intro a b hb
    simpa [commentByDesc] using hb)).sublist hs

theorem recentComments_mem {db : Db} {pid : String} {n : Nat}
    {row : CommentRow} (h : row ∈ recentComments db pid n) :
    row ∈ db.comments ∧ row.post_id = pid := by
  rw [recentComments] at h
  have h1 := (List.take_sublist _ _).mem h
  have h2 := List.mem_mergeSort.mp h1
  have h3 := List.mem_filter.mp h2
  exact ⟨h3.1, by simpa using h3.2⟩

theorem countP_filter_contains {β : Type} (rows : List β)
    (key : β → String) (pids : List String) (pid : String)
    (hcont : pids.contains pid = true) :
    (rows.filter (fun r => pids.contains (key r))).countP
      (fun r => key r == pid) = rows.countP (fun r => key r == pid) := by
  rw [List.countP_filter]
  apply List.countP_congr
  intro r _
  simp only [Bool.and_eq_true]
  constructor
  · exact fun h => h.1
  · intro hx
    refine ⟨hx, ?_⟩
    have he : key r = pid := by simpa using hx
    rw [he]
    exact hcont

/-- C6: every successful GET /api/posts response lists the page's posts in
descending creation-time order, and each returned post carries a like count
equal to the number of like rows for that post, an is_liked flag that is
true exactly when the current user has a like row for it, the post's two
most recent comments, and a total_comments equal to the post's total
comment count — all with respect to the database snapshot the stitched
queries ran against. -/
theorem feed_response_assembly (db : Db) (cur f : Option String)
    (page limit : Nat)
    (hcur : ∀ s, cur = some s → s ≠ "") :
    ((buildFeed db cur f page limit).posts.Pairwise
      (fun a b => b.created_at ≤ a.created_at)) ∧
    ∀ fp ∈ (buildFeed db cur f page limit).posts,
      fp.like_count = db.likes.countP (fun l => l.post_id == fp.id) ∧
      (fp.is_liked = true ↔ ∃ s, cur = some s ∧
        ∃ l ∈ db.likes, l.post_id = fp.id ∧ l.user_id = s) ∧
      fp.total_comments
        = db.comments.countP (fun c => c.post_id == fp.id) ∧
      fp.comments = (recentComments db fp.id 2).map (formatComment db) ∧
      fp.comments.Pairwise (fun a b => b.created_at ≤ a.created_at) ∧
      (∀ fc ∈ fp.comments, ∃ row ∈ db.comments,
        row.post_id = fp.id ∧ fc = formatComment db row) := by
  by_cases hemp : (feedPage db f page limit).isEmpty
  · refine ⟨by simp [buildFeed, hemp], ?_⟩
    intro fp hfp
    simp [buildFeed, hemp] at hfp
  · have hposts : (buildFeed db cur f page limit).posts
        = (feedPage db f page limit).map
          (feedFormat db cur
            ((feedPage db f page limit).map (fun p => p.id))) := by
      simp [buildFeed, hemp]
    constructor
    · rw [hposts, List.pairwise_map]
      exact (feedPage_pairwise db f page limit).imp (by
        intro a b hb
        simpa [feedFormat_created_at] using hb)
    · rw [hposts]
      intro fp hfp
      obtain ⟨p, hp, rfl⟩ := List.mem_map.mp hfp
      have hcont : ((feedPage db f page limit).map
          (fun p => p.id)).contains p.id = true := by
        have : p.id ∈ (feedPage db f page limit).map (fun p => p.id) :=
          List.mem_map_of_mem _ hp
        simpa using this
      refine ⟨?_, ?_, ?_, ?_, ?_, ?_⟩
      · rw [feedFormat_like_count, feedFormat_id, buildCountMap_eq]
        exact countP_filter_contains db.likes (fun l => l.post_id) _ _ hcont
      · rw [feedFormat_is_liked, feedFormat_id, buildUserLikes_eq,
          List.any_eq_true]
        constructor
        · rintro ⟨l, hlmem, hcond⟩
          have hl := (List.mem_filter.mp hlmem).1
          simp only [Bool.and_eq_true] at hcond
          obtain ⟨hmatch, hbeq⟩ := hcond
          rcases hs : cur with _ | s
          · rw [hs] at hmatch
            simp [likeMatches] at hmatch
          · rw [hs] at hmatch
            simp only [likeMatches, Bool.and_eq_true, decide_eq_true_eq,
              beq_iff_eq] at hmatch
            exact ⟨s, rfl, l, hl, by simpa using hbeq, hmatch.2⟩
        · rintro ⟨s, hs, l, hl, hpost, huser⟩
          refine ⟨l, ?_, ?_⟩
          · rw [List.mem_filter]
            exact ⟨hl, by rw [hpost]; exact hcont⟩
          · simp only [Bool.and_eq_true]
            refine ⟨?_, by simpa using hpost⟩
            rw [hs]
            simp only [likeMatches, Bool.and_eq_true, decide_eq_true_eq,
              beq_iff_eq]
            exact ⟨hcur s hs, huser⟩
      · rw [feedFormat_total_comments, feedFormat_id, buildCountMap_eq]
        exact countP_filter_contains db.comments (fun c => c.post_id) _ _
          hcont
      · rw [feedFormat_comments, feedFormat_id]
      · rw [feedFormat_comments, List.pairwise_map]
        exact (recentComments_pairwise db p.id 2).imp (by
          intro a b hb
          simpa [formatComment_created_at] using hb)
      · rw [feedFormat_comments, feedFormat_id]
        intro fc hfc
        obtain ⟨row, hrow, rfl⟩ := List.mem_map.mp hfc
        have hrc := recentComments_mem hrow
        exact ⟨row, hrc.1, hrc.2, rfl⟩

/-- Witness for C6 at a concrete database: two posts, one like by the
current user, three comments on the older post. -/
theorem feed_response_assembly_witness :
    ((buildFeed
        ⟨[⟨"u1", "c1", "Alice"⟩, ⟨"u2", "c2", "Bob"⟩],
         [⟨"p1", "u1", none, some "hi", 10⟩, ⟨"p2", "u2", none, none, 20⟩],
         [⟨"l1", "p1", "u2"⟩],
         [⟨"m1", "p1", "u2", "nice", 11⟩, ⟨"m2", "p1", "u1", "thanks", 12⟩,
          ⟨"m3", "p1", "u2", "wow", 13⟩], []⟩
        (some "u2") none 1 10).posts.Pairwise
      (fun a b => b.created_at ≤ a.created_at)) ∧
    ∀ fp ∈ (buildFeed
        ⟨[⟨"u1", "c1", "Alice"⟩, ⟨"u2", "c2", "Bob"⟩],
         [⟨"p1", "u1", none, some "hi", 10⟩, ⟨"p2", "u2", none, none, 20⟩],
         [⟨"l1", "p1", "u2"⟩],
         [⟨"m1", "p1", "u2", "nice", 11⟩, ⟨"m2", "p1", "u1", "thanks", 12⟩,
          ⟨"m3", "p1", "u2", "wow", 13⟩], []⟩
        (some "u2") none 1 10).posts,
      fp.like_count
        = (⟨[⟨"u1", "c1", "Alice"⟩, ⟨"u2", "c2", "Bob"⟩],
            [⟨"p1", "u1", none, some "hi", 10⟩, ⟨"p2", "u2", none, none, 20⟩],
            [⟨"l1", "p1", "u2"⟩],
            [⟨"m1", "p1", "u2", "nice", 11⟩, ⟨"m2", "p1", "u1", "thanks", 12⟩,
             ⟨"m3", "p1", "u2", "wow", 13⟩], []⟩ : Db).likes.countP
            (fun l => l.post_id == fp.id) ∧
      (fp.is_liked = true ↔ ∃ s, (some "u2" : Option String) = some s ∧
        ∃ l ∈ (⟨[⟨"u1", "c1", "Alice"⟩, ⟨"u2", "c2", "Bob"⟩],
            [⟨"p1", "u1", none, some "hi", 10⟩, ⟨"p2", "u2", none, none, 20⟩],
            [⟨"l1", "p1", "u2"⟩],
            [⟨"m1", "p1", "u2", "nice", 11⟩, ⟨"m2", "p1", "u1", "thanks", 12⟩,
             ⟨"m3", "p1", "u2", "wow", 13⟩], []⟩ : Db).likes,
          l.post_id = fp.id ∧ l.user_id = s) ∧
      fp.total_comments
        = (⟨[⟨"u1", "c1", "Alice"⟩, ⟨"u2", "c2", "Bob"⟩],
            [⟨"p1", "u1", none, some "hi", 10⟩, ⟨"p2", "u2", none, none, 20⟩],
            [⟨"l1", "p1", "u2"⟩],
            [⟨"m1", "p1", "u2", "nice", 11⟩, ⟨"m2", "p1", "u1", "thanks", 12⟩,
             ⟨"m3", "p1", "u2", "wow", 13⟩], []⟩ : Db).comments.countP
            (fun c => c.post_id == fp.id) ∧
      fp.comments = (recentComments
          ⟨[⟨"u1", "c1", "Alice"⟩, ⟨"u2", "c2", "Bob"⟩],
           [⟨"p1", "u1", none, some "hi", 10⟩, ⟨"p2", "u2", none, none, 20⟩],
           [⟨"l1", "p1", "u2"⟩],
           [⟨"m1", "p1", "u2", "nice", 11⟩, ⟨"m2", "p1", "u1", "thanks", 12⟩,
            ⟨"m3", "p1", "u2", "wow", 13⟩], []⟩ fp.id 2).map
          (formatComment
            ⟨[⟨"u1", "c1", "Alice"⟩, ⟨"u2", "c2", "Bob"⟩],
             [⟨"p1", "u1", none, some "hi", 10⟩, ⟨"p2", "u2", none, none, 20⟩],
             [⟨"l1", "p1", "u2"⟩],
             [⟨"m1", "p1", "u2", "nice", 11⟩, ⟨"m2", "p1", "u1", "thanks", 12⟩,
              ⟨"m3", "p1", "u2", "wow", 13⟩], []⟩) ∧
      fp.comments.Pairwise (fun a b => b.created_at ≤ a.created_at) ∧
      (∀ fc ∈ fp.comments, ∃ row ∈
          (⟨[⟨"u1", "c1", "Alice"⟩, ⟨"u2", "c2", "Bob"⟩],
            [⟨"p1", "u1", none, some "hi", 10⟩, ⟨"p2", "u2", none, none, 20⟩],
            [⟨"l1", "p1", "u2"⟩],
            [⟨"m1", "p1", "u2", "nice", 11⟩, ⟨"m2", "p1", "u1", "thanks", 12⟩,
             ⟨"m3", "p1", "u2", "wow", 13⟩], []⟩ : Db).comments,
        row.post_id = fp.id ∧ fc = formatComment
          ⟨[⟨"u1", "c1", "Alice"⟩, ⟨"u2", "c2", "Bob"⟩],
           [⟨"p1", "u1", none, some "hi", 10⟩, ⟨"p2", "u2", none, none, 20⟩],
           [⟨"l1", "p1", "u2"⟩],
           [⟨"m1", "p1", "u2", "nice", 11⟩, ⟨"m2", "p1", "u1", "thanks", 12⟩,
            ⟨"m3", "p1", "u2", "wow", 13⟩], []⟩ row) :=
  feed_response_assembly
    ⟨[⟨"u1", "c1", "Alice"⟩, ⟨"u2", "c2", "Bob"⟩],
     [⟨"p1", "u1", none, some "hi", 10⟩, ⟨"p2", "u2", none, none, 20⟩],
     [⟨"l1", "p1", "u2"⟩],
     [⟨"m1", "p1", "u2", "nice", 11⟩, ⟨"m2", "p1", "u1", "thanks", 12⟩,
      ⟨"m3", "p1", "u2", "wow", 13⟩], []⟩
    (some "u2") none 1 10
    (by
      intro s hs
      cases hs
      decide)

end MySns
